import Mathlib

/-!
Verification of the container wrappers of the docker-api repository
(`src/container.js`, classes `ContainerFs` and `Container`).

The JavaScript fragment is shallowly embedded:

* JS runtime values are modelled by the inductive `JSValue`.
* Fallible evaluation steps (array-destructuring a non-iterable value,
  property access on `null`/`undefined`, reference to an unbound
  identifier) are modelled in `Except JSError`.
* Each wrapper operation is embedded twice: `…Call` computes the call
  descriptor the operation would hand to `this.modem.dial` (an
  `Except.error` result means the operation throws before the dial),
  and `…Run` additionally models the promise executor together with a
  given behaviour of the dial callback, yielding a `JSOutcome`.
* The lexical-scoping facts needed for the unbound-identifier claim are
  embedded as per-method scope records (`JsMethodScope`) transcribing
  which identifiers each method declares and references.
-/

inductive JSError where
  | typeError
  | referenceError
deriving DecidableEq

inductive JSValue where
  | undefined : JSValue
  | null : JSValue
  | bool (b : Bool) : JSValue
  | num (n : Int) : JSValue
  | str (s : String) : JSValue
  | obj (fields : List (String × JSValue)) : JSValue
  | arr (elems : List JSValue) : JSValue

/-- JS truthiness (§ ToBoolean), restricted to the modelled value forms. -/
def truthy : JSValue → Bool
  | JSValue.undefined => false
  | JSValue.null => false
  | JSValue.bool b => b
  | JSValue.num n => n != 0
  | JSValue.str s => s != ""
  | JSValue.obj _ => true
  | JSValue.arr _ => true

/-- The `typeof` operator, restricted to the modelled value forms. -/
def typeofStr : JSValue → String
  | JSValue.undefined => "undefined"
  | JSValue.bool _ => "boolean"
  | JSValue.num _ => "number"
  | JSValue.str _ => "string"
  | JSValue.null => "object"
  | JSValue.obj _ => "object"
  | JSValue.arr _ => "object"

mutual

/-- JS string coercion as used by template literals. -/
def jsToStr : JSValue → String
  | JSValue.undefined => "undefined"
  | JSValue.null => "null"
  | JSValue.bool b => cond b "true" "false"
  | JSValue.num n => toString n
  | JSValue.str s => s
  | JSValue.obj _ => "[object Object]"
  | JSValue.arr es => jsArrToStr es

/-- `Array.prototype.toString`: comma-joined elements, with `null` and
`undefined` elements rendered as the empty string. -/
def jsArrToStr : List JSValue → String
  | [] => ""
  | [JSValue.null] => ""
  | [JSValue.undefined] => ""
  | [v] => jsToStr v
  | JSValue.null :: rest => "," ++ jsArrToStr rest
  | JSValue.undefined :: rest => "," ++ jsArrToStr rest
  | v :: rest => jsToStr v ++ "," ++ jsArrToStr rest

end

/-- First member of a field list bearing the given key, `undefined` when
absent (JS own-property lookup on an object whose keys are distinct). -/
def lookupField (fields : List (String × JSValue)) (k : String) : JSValue :=
  (fields.lookup k).getD JSValue.undefined

/-- Setting an own property on an object field list: an existing key is
overwritten in place, a new key is appended. -/
def setField : List (String × JSValue) → String → JSValue → List (String × JSValue)
  | [], k, v => [(k, v)]
  | p :: rest, k, v =>
    if p.1 = k then (k, v) :: rest else p :: setField rest k v

/-- The enumerable own properties of a string: its indexed characters. -/
def strOwnFields (s : String) : List (String × JSValue) :=
  s.data.enum.map (fun p => (toString p.1, JSValue.str (String.mk [p.2])))

/-- The enumerable own properties of a value, as consumed by
`Object.assign` (and by property lookup below). -/
def JSValue.ownFields : JSValue → List (String × JSValue)
  | JSValue.obj fields => fields
  | JSValue.str s => strOwnFields s
  | JSValue.arr es => es.enum.map (fun p => (toString p.1, p.2))
  | _ => []

/-- JS property access `v.k`: throws `TypeError` on `null`/`undefined`,
otherwise yields the property value or `undefined`. -/
def JSValue.getField (v : JSValue) (k : String) : Except JSError JSValue :=
  match v with
  | JSValue.null => Except.error JSError.typeError
  | JSValue.undefined => Except.error JSError.typeError
  | JSValue.obj fields => Except.ok (lookupField fields k)
  | JSValue.str s => Except.ok (lookupField (strOwnFields s) k)
  | _ => Except.ok JSValue.undefined

/-- The i-th element produced by iterating a string (its characters). -/
def strIterGet (s : String) (i : Nat) : JSValue :=
  match (s.data.drop i).head? with
  | some c => JSValue.str (String.mk [c])
  | none => JSValue.undefined

/-- JS array-destructuring `[a, b] = v` of a value into two positions:
arrays and strings are iterable; every other modelled value (in
particular a plain object) throws a `TypeError`. -/
def destructure2 : JSValue → Except JSError (JSValue × JSValue)
  | JSValue.arr es => Except.ok (es.getD 0 JSValue.undefined, es.getD 1 JSValue.undefined)
  | JSValue.str s => Except.ok (strIterGet s 0, strIterGet s 1)
  | _ => Except.error JSError.typeError

/-- Reading an identifier that is not declared in any enclosing scope
(strict mode): a `ReferenceError`. Used for the free occurrences of
`opts` in `info`, `changes`, `pause`, `unpause` and `wait`. -/
def unboundName : Except JSError JSValue :=
  Except.error JSError.referenceError

/-- A container handle: the `modem` and `id` fields set by the
constructor, the `fs` slot (`none` stands for the default
`new ContainerFs(modem, this)` the constructor installs, `some v` for a
value written over it by `Object.assign`), and any further own
properties copied onto the handle. -/
structure Container where
  modem : JSValue
  id : JSValue
  fs : Option JSValue
  extra : List (String × JSValue)

/-- `new Container(modem, id)` (constructor, src/container.js lines
113-117). -/
def Container.new (modem id : JSValue) : Container :=
  { modem := modem, id := id, fs := none, extra := [] }

/-- A `ContainerFs` handle: the `modem` and the owning container. -/
structure ContainerFs where
  modem : JSValue
  container : Container

/-- `Container.__processArguments` (src/container.js lines 765-773):
a string first argument with a falsy second becomes the id; when both
are falsy the id falls back to `this.id`; the record `{ opts, id }` is
returned. `opts` is never reassigned. -/
def Container.processArguments (self : Container) (opts id : JSValue) : JSValue :=
  let id := if typeofStr opts == "string" && !(truthy id) then opts else id
  let id := if !(truthy opts) && !(truthy id) then self.id else id
  JSValue.obj [("opts", opts), ("id", id)]

/-- `ContainerFs.__processArguments` (src/container.js lines 101-109):
identical to the `Container` version except that the fallback
identifier is `this.container.id`. -/
def ContainerFs.processArguments (self : ContainerFs) (opts id : JSValue) : JSValue :=
  let id := if typeofStr opts == "string" && !(truthy id) then opts else id
  let id := if !(truthy opts) && !(truthy id) then self.container.id else id
  JSValue.obj [("opts", opts), ("id", id)]

/-- One entry of a status-code table: `true` in the source is the
success sentinel, a string is a categorical error tag. -/
inductive StatusVal where
  | success
  | errorTag (tag : String)
deriving DecidableEq

/-- The `call` object each operation hands to `this.modem.dial`. -/
structure CallDescriptor where
  path : String
  method : String
  options : JSValue
  statusCodes : List (Nat × StatusVal)

/-! ### Argument resolution of every `(options?, id?)` operation

Each `…Args` definition transcribes the right-hand side of that
operation's line `[ opts, id ] = this.__processArguments(...)` (or
`[ _, id ] = this.__processArguments(id)` for the single-argument
operations, which pass only one argument, leaving the second
`undefined`). -/

def ContainerFs.infoArgs (self : ContainerFs) (id : JSValue) : JSValue :=
  self.processArguments id JSValue.undefined

def ContainerFs.getArgs (self : ContainerFs) (opts id : JSValue) : JSValue :=
  self.processArguments opts id

def ContainerFs.putArgs (self : ContainerFs) (opts id : JSValue) : JSValue :=
  self.processArguments opts id

def Container.inspectArgs (self : Container) (opts id : JSValue) : JSValue :=
  self.processArguments opts id

def Container.topArgs (self : Container) (opts id : JSValue) : JSValue :=
  self.processArguments opts id

def Container.logsArgs (self : Container) (opts id : JSValue) : JSValue :=
  self.processArguments opts id

def Container.changesArgs (self : Container) (id : JSValue) : JSValue :=
  self.processArguments id JSValue.undefined

def Container.exportArgs (self : Container) (opts id : JSValue) : JSValue :=
  self.processArguments opts id

def Container.statsArgs (self : Container) (opts id : JSValue) : JSValue :=
  self.processArguments opts id

def Container.resizeArgs (self : Container) (opts id : JSValue) : JSValue :=
  self.processArguments opts id

def Container.startArgs (self : Container) (opts id : JSValue) : JSValue :=
  self.processArguments opts id

def Container.stopArgs (self : Container) (opts id : JSValue) : JSValue :=
  self.processArguments opts id

def Container.restartArgs (self : Container) (opts id : JSValue) : JSValue :=
  self.processArguments opts id

def Container.killArgs (self : Container) (opts id : JSValue) : JSValue :=
  self.processArguments opts id

def Container.updateArgs (self : Container) (opts id : JSValue) : JSValue :=
  self.processArguments opts id

def Container.renameArgs (self : Container) (opts id : JSValue) : JSValue :=
  self.processArguments opts id

def Container.pauseArgs (self : Container) (id : JSValue) : JSValue :=
  self.processArguments id JSValue.undefined

def Container.unpauseArgs (self : Container) (id : JSValue) : JSValue :=
  self.processArguments id JSValue.undefined

def Container.attachArgs (self : Container) (opts id : JSValue) : JSValue :=
  self.processArguments opts id

def Container.wsattachArgs (self : Container) (opts id : JSValue) : JSValue :=
  self.processArguments opts id

def Container.waitArgs (self : Container) (id : JSValue) : JSValue :=
  self.processArguments id JSValue.undefined

def Container.deleteArgs (self : Container) (opts id : JSValue) : JSValue :=
  self.processArguments opts id

/-! ### Call-descriptor construction of every operation

Each `…Call` definition models an operation body up to (and including)
the construction of its `call` object: an `Except.error` means the
operation throws before `this.modem.dial` is ever reached. The five
operations whose descriptor cites the undeclared identifier `opts`
(`info`, `changes`, `pause`, `unpause`, `wait`) read it through
`unboundName`. -/

/-- `ContainerFs.info` up to its `call` object (lines 16-28). -/
def ContainerFs.infoCall (self : ContainerFs) (id : JSValue) :
    Except JSError CallDescriptor := do
  let (_, i) ← destructure2 (self.infoArgs id)
  let o ← unboundName
  pure { path := "/containers/" ++ jsToStr i ++ "/archive", method := "HEAD",
         options := o,
         statusCodes := [(200, .success), (404, .errorTag "bad request"),
                         (500, .errorTag "server error")] }

/-- `ContainerFs.get` up to its `call` object (lines 46-59). -/
def ContainerFs.getCall (self : ContainerFs) (opts id : JSValue) :
    Except JSError CallDescriptor := do
  let (o, i) ← destructure2 (self.getArgs opts id)
  pure { path := "/containers/" ++ jsToStr i ++ "/archive", method := "GET",
         options := o,
         statusCodes := [(200, .success), (400, .errorTag "bad request"),
                         (404, .errorTag "no such container"),
                         (500, .errorTag "server error")] }

/-- `ContainerFs.put` up to its `call` object (lines 77-91). -/
def ContainerFs.putCall (self : ContainerFs) (opts id : JSValue) :
    Except JSError CallDescriptor := do
  let (o, i) ← destructure2 (self.putArgs opts id)
  pure { path := "/containers/" ++ jsToStr i ++ "/archive", method := "PUT",
         options := o,
         statusCodes := [(200, .success), (400, .errorTag "bad request"),
                         (403, .errorTag "permission denied"),
                         (404, .errorTag "no such container"),
                         (500, .errorTag "server error")] }

/-- `Container.list`: its `call` object (lines 126-136); `list` takes
only an option bag and performs no argument resolution. -/
def Container.listCall (opts : JSValue) : CallDescriptor :=
  { path := "/containers/json", method := "GET", options := opts,
    statusCodes := [(200, .success), (400, .errorTag "bad request"),
                    (500, .errorTag "server error")] }

/-- `Container.create`: its `call` object (lines 156-168); `create`
takes only an option bag and performs no argument resolution. -/
def Container.createCall (opts : JSValue) : CallDescriptor :=
  { path := "/containers/json", method := "GET", options := opts,
    statusCodes := [(200, .success), (400, .errorTag "bad request"),
                    (404, .errorTag "no such container"),
                    (406, .errorTag "impossible to attach"),
                    (500, .errorTag "server error")] }

/-- `Container.inspect` up to its `call` object (lines 187-199). -/
def Container.inspectCall (self : Container) (opts id : JSValue) :
    Except JSError CallDescriptor := do
  let (o, i) ← destructure2 (self.inspectArgs opts id)
  pure { path := "/containers/" ++ jsToStr i ++ "/json", method := "GET",
         options := o,
         statusCodes := [(200, .success), (404, .errorTag "no such container"),
                         (500, .errorTag "server error")] }

/-- `Container.top` up to its `call` object (lines 218-230). -/
def Container.topCall (self : Container) (opts id : JSValue) :
    Except JSError CallDescriptor := do
  let (o, i) ← destructure2 (self.topArgs opts id)
  pure { path := "/containers/" ++ jsToStr i ++ "/top", method := "GET",
         options := o,
         statusCodes := [(200, .success), (404, .errorTag "no such container"),
                         (500, .errorTag "server error")] }

/-- `Container.logs` up to its `call` object (lines 248-261). -/
def Container.logsCall (self : Container) (opts id : JSValue) :
    Except JSError CallDescriptor := do
  let (o, i) ← destructure2 (self.logsArgs opts id)
  pure { path := "/containers/" ++ jsToStr i ++ "/logs", method := "GET",
         options := o,
         statusCodes := [(101, .success), (200, .success),
                         (404, .errorTag "no such container"),
                         (500, .errorTag "server error")] }

/-- `Container.changes` up to its `call` object (lines 278-290). -/
def Container.changesCall (self : Container) (id : JSValue) :
    Except JSError CallDescriptor := do
  let (_, i) ← destructure2 (self.changesArgs id)
  let o ← unboundName
  pure { path := "/containers/" ++ jsToStr i ++ "/changes", method := "GET",
         options := o,
         statusCodes := [(200, .success), (404, .errorTag "no such container"),
                         (500, .errorTag "server error")] }

/-- The `call` object of `Container.export` for resolved `(opts, id)`
(lines 311-320). -/
def Container.exportDesc (opts id : JSValue) : CallDescriptor :=
  { path := "/containers/" ++ jsToStr id ++ "/export", method := "GET",
    options := opts,
    statusCodes := [(200, .success), (404, .errorTag "no such container"),
                    (500, .errorTag "server error")] }

/-- `Container.export` up to its `call` object (lines 308-320). -/
def Container.exportCall (self : Container) (opts id : JSValue) :
    Except JSError CallDescriptor := do
  let (o, i) ← destructure2 (self.exportArgs opts id)
  pure (Container.exportDesc o i)

/-- The `call` object of `Container.stats` for resolved `(opts, id)`
(lines 350-359): its path is the export path. -/
def Container.statsDesc (opts id : JSValue) : CallDescriptor :=
  { path := "/containers/" ++ jsToStr id ++ "/export", method := "GET",
    options := opts,
    statusCodes := [(200, .success), (404, .errorTag "no such container"),
                    (500, .errorTag "server error")] }

/-- `Container.stats` up to its `call` object (lines 347-359). -/
def Container.statsCall (self : Container) (opts id : JSValue) :
    Except JSError CallDescriptor := do
  let (o, i) ← destructure2 (self.statsArgs opts id)
  pure (Container.statsDesc o i)

/-- `Container.resize` up to its `call` object (lines 377-389). -/
def Container.resizeCall (self : Container) (opts id : JSValue) :
    Except JSError CallDescriptor := do
  let (o, i) ← destructure2 (self.resizeArgs opts id)
  pure { path := "/containers/" ++ jsToStr i ++ "/resize", method := "GET",
         options := o,
         statusCodes := [(200, .success), (404, .errorTag "no such container"),
                         (500, .errorTag "server error")] }

/-- `Container.start` up to its `call` object (lines 407-420). -/
def Container.startCall (self : Container) (opts id : JSValue) :
    Except JSError CallDescriptor := do
  let (o, i) ← destructure2 (self.startArgs opts id)
  pure { path := "/containers/" ++ jsToStr i ++ "/start", method := "POST",
         options := o,
         statusCodes := [(204, .success), (304, .success),
                         (404, .errorTag "no such container"),
                         (500, .errorTag "server error")] }

/-- `Container.stop` up to its `call` object (lines 438-451). -/
def Container.stopCall (self : Container) (opts id : JSValue) :
    Except JSError CallDescriptor := do
  let (o, i) ← destructure2 (self.stopArgs opts id)
  pure { path := "/containers/" ++ jsToStr i ++ "/stop", method := "POST",
         options := o,
         statusCodes := [(204, .success), (304, .success),
                         (404, .errorTag "no such container"),
                         (500, .errorTag "server error")] }

/-- `Container.restart` up to its `call` object (lines 469-481). -/
def Container.restartCall (self : Container) (opts id : JSValue) :
    Except JSError CallDescriptor := do
  let (o, i) ← destructure2 (self.restartArgs opts id)
  pure { path := "/containers/" ++ jsToStr i ++ "/restart", method := "POST",
         options := o,
         statusCodes := [(204, .success), (404, .errorTag "no such container"),
                         (500, .errorTag "server error")] }

/-- `Container.kill` up to its `call` object (lines 499-511). -/
def Container.killCall (self : Container) (opts id : JSValue) :
    Except JSError CallDescriptor := do
  let (o, i) ← destructure2 (self.killArgs opts id)
  pure { path := "/containers/" ++ jsToStr i ++ "/kill", method := "POST",
         options := o,
         statusCodes := [(204, .success), (404, .errorTag "no such container"),
                         (500, .errorTag "server error")] }

/-- `Container.update` up to its `call` object (lines 530-543). -/
def Container.updateCall (self : Container) (opts id : JSValue) :
    Except JSError CallDescriptor := do
  let (o, i) ← destructure2 (self.updateArgs opts id)
  pure { path := "/containers/" ++ jsToStr i ++ "/update", method := "POST",
         options := o,
         statusCodes := [(200, .success), (400, .errorTag "bad request"),
                         (404, .errorTag "no such container"),
                         (500, .errorTag "server error")] }

/-- `Container.rename` up to its `call` object (lines 561-574). -/
def Container.renameCall (self : Container) (opts id : JSValue) :
    Except JSError CallDescriptor := do
  let (o, i) ← destructure2 (self.renameArgs opts id)
  pure { path := "/containers/" ++ jsToStr i ++ "/rename", method := "POST",
         options := o,
         statusCodes := [(204, .success), (404, .errorTag "no such container"),
                         (409, .errorTag "name already taken"),
                         (500, .errorTag "server error")] }

/-- `Container.pause` up to its `call` object (lines 591-603). -/
def Container.pauseCall (self : Container) (id : JSValue) :
    Except JSError CallDescriptor := do
  let (_, i) ← destructure2 (self.pauseArgs id)
  let o ← unboundName
  pure { path := "/containers/" ++ jsToStr i ++ "/pause", method := "POST",
         options := o,
         statusCodes := [(204, .success), (404, .errorTag "no such container"),
                         (500, .errorTag "server error")] }

/-- `Container.unpause` up to its `call` object (lines 620-632). -/
def Container.unpauseCall (self : Container) (id : JSValue) :
    Except JSError CallDescriptor := do
  let (_, i) ← destructure2 (self.unpauseArgs id)
  let o ← unboundName
  pure { path := "/containers/" ++ jsToStr i ++ "/unpause", method := "POST",
         options := o,
         statusCodes := [(204, .success), (404, .errorTag "no such container"),
                         (500, .errorTag "server error")] }

/-- `Container.attach` up to its `call` object (lines 650-664). -/
def Container.attachCall (self : Container) (opts id : JSValue) :
    Except JSError CallDescriptor := do
  let (o, i) ← destructure2 (self.attachArgs opts id)
  pure { path := "/containers/" ++ jsToStr i ++ "/attach", method := "POST",
         options := o,
         statusCodes := [(101, .success), (200, .success),
                         (400, .errorTag "bad request"),
                         (404, .errorTag "no such container"),
                         (500, .errorTag "server error")] }

/-- `Container.wsattach` up to its `call` object (lines 682-695). -/
def Container.wsattachCall (self : Container) (opts id : JSValue) :
    Except JSError CallDescriptor := do
  let (o, i) ← destructure2 (self.wsattachArgs opts id)
  pure { path := "/containers/" ++ jsToStr i ++ "/attach/ws", method := "GET",
         options := o,
         statusCodes := [(200, .success), (400, .errorTag "bad request"),
                         (404, .errorTag "no such container"),
                         (500, .errorTag "server error")] }

/-- `Container.wait` up to its `call` object (lines 712-724). -/
def Container.waitCall (self : Container) (id : JSValue) :
    Except JSError CallDescriptor := do
  let (_, i) ← destructure2 (self.waitArgs id)
  let o ← unboundName
  pure { path := "/containers/" ++ jsToStr i ++ "/wait", method := "POST",
         options := o,
         statusCodes := [(200, .success), (404, .errorTag "no such container"),
                         (500, .errorTag "server error")] }

/-- `Container.delete` up to its `call` object (lines 742-755). -/
def Container.deleteCall (self : Container) (opts id : JSValue) :
    Except JSError CallDescriptor := do
  let (o, i) ← destructure2 (self.deleteArgs opts id)
  pure { path := "/containers/" ++ jsToStr i, method := "DELETE",
         options := o,
         statusCodes := [(204, .success), (400, .errorTag "bad request"),
                         (404, .errorTag "no such container"),
                         (500, .errorTag "server error")] }

/-! ### Promise-level semantics

`JSOutcome` records what happens when an operation is invoked against a
given behaviour of `this.modem.dial`: the operation may throw
synchronously before any promise exists (`threw`), or its promise is
rejected, resolved, or never settles (`unsettled`, e.g. because the
dial callback itself threw, or because a buffering callback waits for
an `end` event that never fires). A dial behaviour is the single
invocation of the dial callback: `Except.error e` for `cb(err)` with a
truthy error, `Except.ok r` for `cb(null, r)`. -/

inductive JSOutcome (α : Type) where
  | threw (e : JSError)
  | rejected (e : JSValue)
  | resolved (v : α)
  | unsettled

/-- One step of `Object.assign(container, src)`: copying one enumerable
own property of the source onto a container handle. The constructor
fields `modem`, `id` and `fs` are overwritten in place; any other key
lands among the extra properties. -/
def assignStep (acc : Container) (p : String × JSValue) : Container :=
  if p.1 = "modem" then { acc with modem := p.2 }
  else if p.1 = "id" then { acc with id := p.2 }
  else if p.1 = "fs" then { acc with fs := some p.2 }
  else { acc with extra := setField acc.extra p.1 p.2 }

/-- `Object.assign(container, src)` over a container handle: the source
fields are copied in order. -/
def Container.assign (c : Container) (src : List (String × JSValue)) : Container :=
  src.foldl assignStep c

/-- `Container.list` with a dial behaviour (lines 138-146): on error the
promise is rejected; on a result the callback maps each element `conf`
to `Object.assign(new Container(this.modem, conf.Id), conf)`. A
non-array result (no `.map`) or a `null`/`undefined` element (property
access throws) makes the callback itself throw, leaving the promise
unsettled. -/
def Container.listRun (self : Container) (beh : Except JSValue JSValue) :
    JSOutcome (List Container) :=
  match beh with
  | Except.error e => JSOutcome.rejected e
  | Except.ok v =>
    match v with
    | JSValue.arr es =>
      match es.mapM (fun conf =>
          (conf.getField "Id").map
            (fun i => Container.assign (Container.new self.modem i) conf.ownFields)) with
      | Except.error _ => JSOutcome.unsettled
      | Except.ok cs => JSOutcome.resolved cs
    | _ => JSOutcome.unsettled

/-- `Container.create` with a dial behaviour (lines 170-176): on error
the promise is rejected; otherwise the callback builds
`new Container(this.modem, conf.Id)` and resolves with
`Object.assign(container, conf)`. A `null`/`undefined` body makes
`conf.Id` throw inside the callback, leaving the promise unsettled. -/
def Container.createRun (self : Container) (beh : Except JSValue JSValue) :
    JSOutcome Container :=
  match beh with
  | Except.error e => JSOutcome.rejected e
  | Except.ok conf =>
    match conf.getField "Id" with
    | Except.error _ => JSOutcome.unsettled
    | Except.ok i =>
      JSOutcome.resolved (Container.assign (Container.new self.modem i) conf.ownFields)

/-- `Container.inspect` with a dial behaviour (lines 187-208): the
argument destructuring runs first; were it reached, the callback would
resolve with `Object.assign(new Container(this.modem, id), conf)`. -/
def Container.inspectRun (self : Container) (opts id : JSValue)
    (beh : Except JSValue JSValue) : JSOutcome Container :=
  match destructure2 (self.inspectArgs opts id) with
  | Except.error e => JSOutcome.threw e
  | Except.ok (_, i) =>
    match beh with
    | Except.error e => JSOutcome.rejected e
    | Except.ok conf =>
      JSOutcome.resolved (Container.assign (Container.new self.modem i) conf.ownFields)

/-- `Container.start` with a dial behaviour (lines 407-427): the
argument destructuring runs first; were it reached, the callback would
reject on a dial error and resolve with no value otherwise. -/
def Container.startRun (self : Container) (opts id : JSValue)
    (beh : Except JSValue Unit) : JSOutcome Unit :=
  match destructure2 (self.startArgs opts id) with
  | Except.error e => JSOutcome.threw e
  | Except.ok _ =>
    match beh with
    | Except.error e => JSOutcome.rejected e
    | Except.ok _ => JSOutcome.resolved ()

/-- The event history of a dialled tar stream: the `data` chunks it
emits and whether an `end` event ever fires. -/
structure StreamEvents where
  chunks : List String
  ends : Bool

/-- What `Container.export` resolves with: the live stream handle, or
the buffered concatenated text. -/
inductive ExportResult where
  | streamHandle (s : StreamEvents)
  | text (t : String)

/-- The dial callback of `Container.export` (lines 322-336): reject on
error; resolve with the stream when `opts.stream` is truthy; otherwise
buffer the chunks and resolve with their concatenation on `end` (never
settling when no `end` fires). Accessing `opts.stream` on a
`null`/`undefined` option bag throws inside the callback, leaving the
promise unsettled. -/
def exportCallback (opts : JSValue) (beh : Except JSValue StreamEvents) :
    JSOutcome ExportResult :=
  match beh with
  | Except.error e => JSOutcome.rejected e
  | Except.ok s =>
    match opts.getField "stream" with
    | Except.error _ => JSOutcome.unsettled
    | Except.ok flag =>
      if truthy flag then JSOutcome.resolved (ExportResult.streamHandle s)
      else if s.ends then JSOutcome.resolved (ExportResult.text (String.join s.chunks))
      else JSOutcome.unsettled

/-- `Container.export` with a dial behaviour (lines 308-337): the
argument destructuring runs first; were it reached, `exportCallback`
describes the dial callback. -/
def Container.exportRun (self : Container) (opts id : JSValue)
    (beh : Except JSValue StreamEvents) : JSOutcome ExportResult :=
  match destructure2 (self.exportArgs opts id) with
  | Except.error e => JSOutcome.threw e
  | Except.ok (o, _) => exportCallback o beh

/-! ### Lexical scoping of the five operations citing `opts` and `_`

For the scoping claim, each of `ContainerFs.info`, `Container.changes`,
`Container.pause`, `Container.unpause` and `Container.wait` is
transcribed as a scope record: the method's parameters, every name
declared anywhere inside its body (its `const call`, and the parameters
of its nested arrow functions), and every identifier the body
references (destructuring targets included; property names and the
keyword `this` excluded). The module scope of `src/container.js`
declares only the two classes. -/

structure JsMethodScope where
  params : List String
  declared : List String
  referenced : List String

/-- The declarations of the module scope of `src/container.js`. -/
def moduleScopeDeclared : List String := ["ContainerFs", "Container"]

/-- Whether a name is declared in the method or any enclosing scope. -/
def JsMethodScope.resolves (f : JsMethodScope) (n : String) : Bool :=
  n ∈ f.params || n ∈ f.declared || n ∈ moduleScopeDeclared

/-- Scope record of `ContainerFs.info` (lines 16-36). -/
def fsInfoScope : JsMethodScope :=
  { params := ["id"],
    declared := ["call", "resolve", "reject", "err", "info"],
    referenced := ["_", "id", "opts", "call", "Promise", "resolve", "reject",
                   "err", "info"] }

/-- Scope record of `Container.changes` (lines 278-298). -/
def changesScope : JsMethodScope :=
  { params := ["id"],
    declared := ["call", "resolve", "reject", "err", "changes"],
    referenced := ["_", "id", "opts", "call", "Promise", "resolve", "reject",
                   "err", "changes"] }

/-- Scope record of `Container.pause` (lines 591-611). -/
def pauseScope : JsMethodScope :=
  { params := ["id"],
    declared := ["call", "resolve", "reject", "err"],
    referenced := ["_", "id", "opts", "call", "Promise", "resolve", "reject",
                   "err"] }

/-- Scope record of `Container.unpause` (lines 620-640). -/
def unpauseScope : JsMethodScope :=
  { params := ["id"],
    declared := ["call", "resolve", "reject", "err"],
    referenced := ["_", "id", "opts", "call", "Promise", "resolve", "reject",
                   "err"] }

/-- Scope record of `Container.wait` (lines 712-732). -/
def waitScope : JsMethodScope :=
  { params := ["id"],
    declared := ["call", "resolve", "reject", "err", "code"],
    referenced := ["_", "id", "opts", "call", "Promise", "resolve", "reject",
                   "err", "code"] }

/-! ## Claims -/

/-- C1 counterexample: when the first argument is the plain string
`"abc123"` and the second is absent, `__processArguments` does resolve
the identifier to the string, but the `opts` component of the returned
record still holds that string — it is neither absent (`undefined`) nor
an empty option bag, refuting the claim that the resolved option bag is
empty/absent. -/
theorem c1_counterexample :
    Container.processArguments
        (Container.new (JSValue.str "modemA") (JSValue.str "selfid"))
        (JSValue.str "abc123") JSValue.undefined
      = JSValue.obj [("opts", JSValue.str "abc123"), ("id", JSValue.str "abc123")]
    ∧ JSValue.str "abc123" ≠ JSValue.undefined
    ∧ JSValue.str "abc123" ≠ JSValue.obj [] :=
  ⟨rfl, fun h => JSValue.noConfusion h, fun h => JSValue.noConfusion h⟩

/-- C1 (amended): when the first argument is a plain nonempty string and
the second is absent, the resolved identifier equals that string while
the resolved `opts` component also keeps the string (it is not
cleared); when both arguments are absent, the resolved identifier
equals the handle's stored identifier (`this.id` for `Container`,
`this.container.id` for `ContainerFs`). -/
theorem c1_argument_resolution :
    (∀ (c : Container) (s : String), s ≠ "" →
        Container.processArguments c (JSValue.str s) JSValue.undefined
          = JSValue.obj [("opts", JSValue.str s), ("id", JSValue.str s)])
    ∧ (∀ c : Container,
        Container.processArguments c JSValue.undefined JSValue.undefined
          = JSValue.obj [("opts", JSValue.undefined), ("id", c.id)])
    ∧ (∀ (f : ContainerFs) (s : String), s ≠ "" →
        ContainerFs.processArguments f (JSValue.str s) JSValue.undefined
          = JSValue.obj [("opts", JSValue.str s), ("id", JSValue.str s)])
    ∧ (∀ f : ContainerFs,
        ContainerFs.processArguments f JSValue.undefined JSValue.undefined
          = JSValue.obj [("opts", JSValue.undefined), ("id", f.container.id)]) := by
  refine ⟨?_, fun c => rfl, ?_, fun f => rfl⟩ <;>
    · intro x s h
      simp [Container.processArguments, ContainerFs.processArguments, truthy,
            typeofStr, h]

/-- Witness for C1: the amended law evaluated at the nonempty string
`"abc"` on a concrete container handle. -/
theorem c1_witness :
    Container.processArguments
        (Container.new (JSValue.str "m0") (JSValue.str "stored"))
        (JSValue.str "abc") JSValue.undefined
      = JSValue.obj [("opts", JSValue.str "abc"), ("id", JSValue.str "abc")] :=
  c1_argument_resolution.1 (Container.new (JSValue.str "m0") (JSValue.str "stored"))
    "abc" (by decide)

/-- C2: every `Container` and `ContainerFs` operation that resolves its
arguments through `__processArguments` array-destructures the record
`{ opts, id }` the helper returns; a plain object is not iterable, so
each operation throws a `TypeError` before its call descriptor is
constructed (`Except.error` here means no descriptor exists, hence
`this.modem.dial` is never reached), for every argument combination. -/
theorem c2_destructure_type_error :
    (∀ (c : Container) (o i : JSValue), c.inspectCall o i = Except.error JSError.typeError)
    ∧ (∀ (c : Container) (o i : JSValue), c.topCall o i = Except.error JSError.typeError)
    ∧ (∀ (c : Container) (o i : JSValue), c.logsCall o i = Except.error JSError.typeError)
    ∧ (∀ (c : Container) (o i : JSValue), c.exportCall o i = Except.error JSError.typeError)
    ∧ (∀ (c : Container) (o i : JSValue), c.statsCall o i = Except.error JSError.typeError)
    ∧ (∀ (c : Container) (o i : JSValue), c.resizeCall o i = Except.error JSError.typeError)
    ∧ (∀ (c : Container) (o i : JSValue), c.startCall o i = Except.error JSError.typeError)
    ∧ (∀ (c : Container) (o i : JSValue), c.stopCall o i = Except.error JSError.typeError)
    ∧ (∀ (c : Container) (o i : JSValue), c.restartCall o i = Except.error JSError.typeError)
    ∧ (∀ (c : Container) (o i : JSValue), c.killCall o i = Except.error JSError.typeError)
    ∧ (∀ (c : Container) (o i : JSValue), c.updateCall o i = Except.error JSError.typeError)
    ∧ (∀ (c : Container) (o i : JSValue), c.renameCall o i = Except.error JSError.typeError)
    ∧ (∀ (c : Container) (o i : JSValue), c.attachCall o i = Except.error JSError.typeError)
    ∧ (∀ (c : Container) (o i : JSValue), c.wsattachCall o i = Except.error JSError.typeError)
    ∧ (∀ (c : Container) (o i : JSValue), c.deleteCall o i = Except.error JSError.typeError)
    ∧ (∀ (c : Container) (i : JSValue), c.changesCall i = Except.error JSError.typeError)
    ∧ (∀ (c : Container) (i : JSValue), c.pauseCall i = Except.error JSError.typeError)
    ∧ (∀ (c : Container) (i : JSValue), c.unpauseCall i = Except.error JSError.typeError)
    ∧ (∀ (c : Container) (i : JSValue), c.waitCall i = Except.error JSError.typeError)
    ∧ (∀ (f : ContainerFs) (i : JSValue), f.infoCall i = Except.error JSError.typeError)
    ∧ (∀ (f : ContainerFs) (o i : JSValue), f.getCall o i = Except.error JSError.typeError)
    ∧ (∀ (f : ContainerFs) (o i : JSValue), f.putCall o i = Except.error JSError.typeError) := by
  repeat' apply And.intro
  all_goals intros
  all_goals rfl

/-- C3: in `info`, `changes`, `pause`, `unpause` and `wait`, the
identifiers `opts` (used as the descriptor's options field) and `_`
(used as a destructuring target) are referenced by the body but are not
declared by the method's parameters, by any declaration inside the
method, or by the module scope — they are unbound in every enclosing
scope. -/
theorem c3_unbound_names :
    ("opts" ∈ fsInfoScope.referenced ∧ "_" ∈ fsInfoScope.referenced
      ∧ fsInfoScope.resolves "opts" = false ∧ fsInfoScope.resolves "_" = false)
    ∧ ("opts" ∈ changesScope.referenced ∧ "_" ∈ changesScope.referenced
      ∧ changesScope.resolves "opts" = false ∧ changesScope.resolves "_" = false)
    ∧ ("opts" ∈ pauseScope.referenced ∧ "_" ∈ pauseScope.referenced
      ∧ pauseScope.resolves "opts" = false ∧ pauseScope.resolves "_" = false)
    ∧ ("opts" ∈ unpauseScope.referenced ∧ "_" ∈ unpauseScope.referenced
      ∧ unpauseScope.resolves "opts" = false ∧ unpauseScope.resolves "_" = false)
    ∧ ("opts" ∈ waitScope.referenced ∧ "_" ∈ waitScope.referenced
      ∧ waitScope.resolves "opts" = false ∧ waitScope.resolves "_" = false) := by
  decide

/-- C4 (code bug): `start`, like every operation resolving through
`__processArguments`, throws a `TypeError` at the argument
destructuring before `new Promise` executes, for every argument
combination and every dial behaviour — so no promise is ever created,
let alone settled exactly once as the claim requires. -/
theorem c4_start_never_settles :
    ∀ (c : Container) (opts id : JSValue) (beh : Except JSValue Unit),
      Container.startRun c opts id beh = JSOutcome.threw JSError.typeError :=
  fun _ _ _ _ => rfl

/-- C5 (code bug): `export` throws a `TypeError` at the argument
destructuring before dialling, for every argument combination and every
stream behaviour — it never resolves with a stream handle nor with
buffered text, contrary to the claimed `opts.stream` dichotomy (which
only describes the unreachable dial callback, `exportCallback`). -/
theorem c5_export_never_streams :
    ∀ (c : Container) (opts id : JSValue) (beh : Except JSValue StreamEvents),
      Container.exportRun c opts id beh = JSOutcome.threw JSError.typeError :=
  fun _ _ _ _ => rfl

/-- C7 (code bug): `inspect` throws a `TypeError` at the argument
destructuring, for every argument combination and every dial behaviour,
so it never resolves with a freshly merged handle as the mutation
policy claims (while `list` and `create`, which skip
`__processArguments`, do construct fresh merged handles). -/
theorem c7_inspect_throws :
    ∀ (c : Container) (opts id : JSValue) (beh : Except JSValue JSValue),
      Container.inspectRun c opts id beh = JSOutcome.threw JSError.typeError :=
  fun _ _ _ _ => rfl

/-- C6: every `(options?, id?)` operation resolves its arguments through
the same `__processArguments` computation before building its call
descriptor — the two-argument operations pass both arguments, the
single-argument operations pass only the identifier (second argument
`undefined`), the `ContainerFs` operations use the `ContainerFs`
helper, and that helper computes exactly the `Container` computation
with the owning container's stored identifier as fallback. -/
theorem c6_uniform_resolution :
    (∀ (c : Container) (o i : JSValue),
        c.inspectArgs o i = c.processArguments o i
      ∧ c.topArgs o i = c.processArguments o i
      ∧ c.logsArgs o i = c.processArguments o i
      ∧ c.exportArgs o i = c.processArguments o i
      ∧ c.statsArgs o i = c.processArguments o i
      ∧ c.resizeArgs o i = c.processArguments o i
      ∧ c.startArgs o i = c.processArguments o i
      ∧ c.stopArgs o i = c.processArguments o i
      ∧ c.restartArgs o i = c.processArguments o i
      ∧ c.killArgs o i = c.processArguments o i
      ∧ c.updateArgs o i = c.processArguments o i
      ∧ c.renameArgs o i = c.processArguments o i
      ∧ c.attachArgs o i = c.processArguments o i
      ∧ c.wsattachArgs o i = c.processArguments o i
      ∧ c.deleteArgs o i = c.processArguments o i)
    ∧ (∀ (c : Container) (i : JSValue),
        c.changesArgs i = c.processArguments i JSValue.undefined
      ∧ c.pauseArgs i = c.processArguments i JSValue.undefined
      ∧ c.unpauseArgs i = c.processArguments i JSValue.undefined
      ∧ c.waitArgs i = c.processArguments i JSValue.undefined)
    ∧ (∀ (f : ContainerFs) (o i : JSValue),
        f.getArgs o i = f.processArguments o i
      ∧ f.putArgs o i = f.processArguments o i)
    ∧ (∀ (f : ContainerFs) (i : JSValue),
        f.infoArgs i = f.processArguments i JSValue.undefined)
    ∧ (∀ (f : ContainerFs) (o i : JSValue),
        f.processArguments o i = Container.processArguments f.container o i) := by
  repeat' apply And.intro
  all_goals intros
  all_goals repeat' apply And.intro
  all_goals rfl

/-- Copying a single own property whose key is not `"id"` onto a
container handle leaves the handle's `id` unchanged. -/
theorem assignStep_id (c : Container) (p : String × JSValue) (h : p.1 ≠ "id") :
    (assignStep c p).id = c.id := by
  unfold assignStep
  split_ifs <;> simp_all

/-- `Object.assign` from a source without an own `"id"` key leaves a
container handle's `id` unchanged. -/
theorem assign_id_of_not_mem :
    ∀ (src : List (String × JSValue)) (c : Container),
      "id" ∉ src.map Prod.fst → (Container.assign c src).id = c.id := by
  intro src
  induction src with
  | nil => intro c _; rfl
  | cons p rest ih =>
    intro c h
    rw [List.map_cons, List.mem_cons] at h
    push_neg at h
    show (Container.assign (assignStep c p) rest).id = c.id
    rw [ih _ h.2, assignStep_id c p (Ne.symm h.1)]

/-- C8 counterexample: a successful `create` whose response body carries
both `Id` and a lowercase `id` attribute resolves with a handle whose
identifier is the merged lowercase `id` value, not the server-assigned
`conf.Id` — `Object.assign(container, conf)` overwrites the identifier
the constructor set. -/
theorem c8_counterexample :
    Container.createRun (Container.new (JSValue.str "m") JSValue.undefined)
        (Except.ok (JSValue.obj [("Id", JSValue.str "srv"), ("id", JSValue.str "other")]))
      = JSOutcome.resolved
          { modem := JSValue.str "m", id := JSValue.str "other", fs := none,
            extra := [("Id", JSValue.str "srv")] }
    ∧ JSValue.str "other" ≠ JSValue.str "srv"
    ∧ lookupField [("Id", JSValue.str "srv"), ("id", JSValue.str "other")] "Id"
      = JSValue.str "srv" :=
  ⟨rfl, fun h => absurd (JSValue.str.inj h) (by decide), rfl⟩

/-- C8 (amended): for every successful `create` call whose response body
has no own lowercase `id` attribute, `create` resolves with a new
handle built by merging the whole body onto
`new Container(this.modem, conf.Id)`, and that handle's identifier
equals the server-assigned `conf.Id`. -/
theorem c8_create_server_id (c : Container) (conf : List (String × JSValue))
    (h : "id" ∉ conf.map Prod.fst) :
    Container.createRun c (Except.ok (JSValue.obj conf))
      = JSOutcome.resolved
          (Container.assign (Container.new c.modem (lookupField conf "Id")) conf)
    ∧ (Container.assign (Container.new c.modem (lookupField conf "Id")) conf).id
      = lookupField conf "Id" := by
  refine ⟨rfl, ?_⟩
  rw [assign_id_of_not_mem conf _ h]
  rfl

/-- Witness for C8: the amended statement evaluated on a concrete
handle and the response body of the spec's end-to-end scenario. -/
theorem c8_witness :
    Container.createRun (Container.new (JSValue.str "m") JSValue.undefined)
        (Except.ok (JSValue.obj
          [("Id", JSValue.str "serverid"), ("Image", JSValue.str "ubuntu")]))
      = JSOutcome.resolved
          (Container.assign
            (Container.new (JSValue.str "m")
              (lookupField [("Id", JSValue.str "serverid"),
                            ("Image", JSValue.str "ubuntu")] "Id"))
            [("Id", JSValue.str "serverid"), ("Image", JSValue.str "ubuntu")])
    ∧ (Container.assign
        (Container.new (JSValue.str "m")
          (lookupField [("Id", JSValue.str "serverid"),
                        ("Image", JSValue.str "ubuntu")] "Id"))
        [("Id", JSValue.str "serverid"), ("Image", JSValue.str "ubuntu")]).id
      = lookupField [("Id", JSValue.str "serverid"),
                     ("Image", JSValue.str "ubuntu")] "Id" :=
  c8_create_server_id (Container.new (JSValue.str "m") JSValue.undefined)
    [("Id", JSValue.str "serverid"), ("Image", JSValue.str "ubuntu")] (by decide)

/-- C9: for every option bag, `create` builds a call descriptor with the
same path `/containers/json`, the same method `GET` and the same
options as `list` — it never issues a POST — and the two descriptors
differ in their status tables. -/
theorem c9_create_same_endpoint_as_list :
    ∀ opts : JSValue,
      (Container.createCall opts).path = (Container.listCall opts).path
      ∧ (Container.createCall opts).method = (Container.listCall opts).method
      ∧ (Container.createCall opts).options = (Container.listCall opts).options
      ∧ (Container.createCall opts).path = "/containers/json"
      ∧ (Container.createCall opts).method = "GET"
      ∧ (Container.createCall opts).method ≠ "POST"
      ∧ (Container.createCall opts).statusCodes ≠ (Container.listCall opts).statusCodes := by
  intro opts
  refine ⟨rfl, rfl, rfl, rfl, rfl, ?_, ?_⟩
  · intro h
    have hg : ("GET" : String) = "POST" := h
    exact absurd hg (by decide)
  · intro h
    have hl : (5 : Nat) = 3 := congrArg List.length h
    exact absurd hl (by decide)

/-- C10: for every resolved `(opts, id)`, the call descriptor `stats`
builds is identical, field by field, to the one `export` builds: the
export path `/containers/id/export`, method `GET`, the same options and
the same status table — `stats` never targets a stats endpoint. -/
theorem c10_stats_descriptor_is_export :
    ∀ opts id : JSValue,
      Container.statsDesc opts id = Container.exportDesc opts id
      ∧ (Container.statsDesc opts id).path = "/containers/" ++ jsToStr id ++ "/export"
      ∧ (Container.statsDesc opts id).method = "GET"
      ∧ (Container.statsDesc opts id).path ≠ "/containers/" ++ jsToStr id ++ "/stats" := by
  intro opts id
  refine ⟨rfl, rfl, rfl, ?_⟩
  intro h
  have hl := congrArg String.length h
  simp only [Container.statsDesc, String.length_append] at hl
  have h7 : ("/export" : String).length = 7 := rfl
  have h6 : ("/stats" : String).length = 6 := rfl
  rw [h7, h6] at hl
  omega
